import Mathlib

/-!
Verification development for the geospatial partitioning engine of the
RocketMap repository (`src/tools/` processing library).

The JavaScript sources are shallowly embedded over exact rational
arithmetic (`ℚ` in place of IEEE doubles, which is the idealized real
semantics the specification speaks in). JavaScript plain objects used as
string-keyed maps are embedded as insertion-ordered association lists in
which assigning to an existing key updates the first (unique) entry in
place and assigning to a fresh key appends, exactly like property
assignment on a JS object.

Sources embedded here:
  - `src/tools/lib/grid.js` (createGrid, getCellKey, assignFeaturesToGrid,
     getAllCoordinates, writeGridFiles, createIndexFile)
  - `src/tools/lib/projection.js` (transformCoordinates)
  - `src/tools/lib/optimize.js` (optimizeProperties)
  - the bounds-scanning first pass of the `process` CLI command
-/

/-! ## JavaScript object model: insertion-ordered association lists -/

/-- Property read on a JS object: value of the first entry with the given
key, `none` when the key is absent (JS `undefined`). -/
def objGet {V : Type} (l : List (String × V)) (k : String) : Option V :=
  match l with
  | [] => none
  | (k', v) :: rest => if k' = k then some v else objGet rest k

/-- Property assignment on a JS object: an existing key keeps its position
and receives the new value, a fresh key is appended at the end. -/
def objSet {V : Type} (l : List (String × V)) (k : String) (v : V) :
    List (String × V) :=
  match l with
  | [] => [(k, v)]
  | (k', v') :: rest =>
      if k' = k then (k', v) :: rest else (k', v') :: objSet rest k v

/-- In-place update of the entry at a key when present (JS
`if (obj[k]) mutate(obj[k])`); a missing key leaves the object unchanged. -/
def objModify {V : Type} (l : List (String × V)) (k : String) (f : V → V) :
    List (String × V) :=
  match l with
  | [] => []
  | (k', v) :: rest =>
      if k' = k then (k', f v) :: rest else (k', v) :: objModify rest k f

theorem objGet_objSet_self {V : Type} (l : List (String × V)) (k : String)
    (v : V) : objGet (objSet l k v) k = some v := by
  induction l with
  | nil => simp [objGet, objSet]
  | cons p rest ih =>
      obtain ⟨k', v'⟩ := p
      by_cases h : k' = k <;> simp [objGet, objSet, h, ih]

theorem objGet_objSet_ne {V : Type} (l : List (String × V)) (k k' : String)
    (v : V) (h : k' ≠ k) : objGet (objSet l k v) k' = objGet l k' := by
  have h2 : k ≠ k' := Ne.symm h
  induction l with
  | nil => simp [objGet, objSet, h2]
  | cons p rest ih =>
      obtain ⟨k0, v0⟩ := p
      by_cases h0 : k0 = k
      · subst h0
        simp [objGet, objSet, h2]
      · by_cases h1 : k0 = k' <;> simp [objGet, objSet, h0, h1, ih, h, h2]

theorem objGet_objModify_self {V : Type} (l : List (String × V)) (k : String)
    (f : V → V) : objGet (objModify l k f) k = (objGet l k).map f := by
  induction l with
  | nil => simp [objGet, objModify]
  | cons p rest ih =>
      obtain ⟨k', v⟩ := p
      by_cases h : k' = k <;> simp [objGet, objModify, h, ih]

theorem objGet_objModify_ne {V : Type} (l : List (String × V)) (k k' : String)
    (f : V → V) (h : k' ≠ k) :
    objGet (objModify l k f) k' = objGet l k' := by
  have h2 : k ≠ k' := Ne.symm h
  induction l with
  | nil => simp [objGet, objModify]
  | cons p rest ih =>
      obtain ⟨k0, v⟩ := p
      by_cases h0 : k0 = k
      · subst h0
        simp [objGet, objModify, h2]
      · by_cases h1 : k0 = k' <;> simp [objGet, objModify, h0, h1, ih, h, h2]

theorem objGet_isSome_objSet {V : Type} (l : List (String × V))
    (k k' : String) (v : V) (h : (objGet l k').isSome) :
    (objGet (objSet l k v) k').isSome := by
  by_cases hk : k' = k
  · subst hk; simp [objGet_objSet_self]
  · rwa [objGet_objSet_ne _ _ _ _ hk]

/-! ## Fixed six-decimal formatting (JS `Number.prototype.toFixed(6)`)

`x.toFixed(6)` renders the sign of `x`, then the integer `n` nearest to
`|x| * 10^6` (ties go to the larger `n`), as integer part, a dot and six
decimal digits. -/

/-- The six decimal digits of a natural number below `10^6`, most
significant first. -/
def sixDigits (n : ℕ) : String :=
  String.mk [Nat.digitChar (n / 100000 % 10), Nat.digitChar (n / 10000 % 10),
    Nat.digitChar (n / 1000 % 10), Nat.digitChar (n / 100 % 10),
    Nat.digitChar (n / 10 % 10), Nat.digitChar (n % 10)]

/-- JS `x.toFixed(6)` on the exact value `x`. -/
def toFixed6 (x : ℚ) : String :=
  let sign := if x < 0 then "-" else ""
  let n : ℕ := (⌊|x| * 1000000 + 1/2⌋).toNat
  sign ++ toString (n / 1000000) ++ "." ++ sixDigits (n % 1000000)

/-! ## `getCellKey` (src/tools/lib/grid.js lines 45 to 49) -/

/-- `getCellKey(lat, lng, gridSize)`:
`latCell = Math.floor(lat / gridSize) * gridSize`,
`lngCell = Math.floor(lng / gridSize) * gridSize`, rendered as
`latCell.toFixed(6) + "_" + lngCell.toFixed(6)`. -/
def getCellKey (lat lng gridSize : ℚ) : String :=
  toFixed6 (⌊lat / gridSize⌋ * gridSize) ++ "_" ++
    toFixed6 (⌊lng / gridSize⌋ * gridSize)

/-! ## GeoJSON geometries and features -/

/-- A coordinate pair in GeoJSON order: `(longitude, latitude)`. -/
abbrev Coord : Type := ℚ × ℚ

/-- GeoJSON geometry: the six concrete types plus `GeometryCollection`. -/
inductive Geometry : Type where
  | point (c : Coord)
  | lineString (cs : List Coord)
  | polygon (rings : List (List Coord))
  | multiPoint (cs : List Coord)
  | multiLineString (lines : List (List Coord))
  | multiPolygon (polys : List (List (List Coord)))
  | geometryCollection (geoms : List Geometry)

/-- A GeoJSON feature: a possibly-null geometry plus a property mapping
(the shapefile reader yields records of this shape as `feature.value`). -/
structure Feature : Type where
  geometry : Option Geometry
  properties : List (String × String)

/-- `getAllCoordinates(geometry)` (src/tools/lib/grid.js lines 100 to 140):
collects every coordinate pair of a geometry; `GeometryCollection`
recurses into its members. -/
def getAllCoordinates : Geometry → List Coord
  | .point c => [c]
  | .lineString cs => cs
  | .polygon rings => rings.flatten
  | .multiPoint cs => cs
  | .multiLineString lines => lines.flatten
  | .multiPolygon polys => polys.flatten.flatten
  | .geometryCollection geoms =>
      geoms.attach.flatMap (fun g => getAllCoordinates g.1)
decreasing_by
  have h := List.sizeOf_lt_of_mem g.2
  simp only [Geometry.geometryCollection.sizeOf_spec]
  omega

/-! ## Bounds and the grid (src/tools/lib/grid.js) -/

/-- Geographic bounds record, as used throughout grid.js. -/
structure Bounds : Type where
  minLat : ℚ
  maxLat : ℚ
  minLng : ℚ
  maxLng : ℚ
deriving DecidableEq

/-- A grid cell: its bounds, its accumulating feature list, and the
filename / feature count set by `writeGridFiles` once written
(`none` / `0` before that). -/
structure Cell : Type where
  bounds : Bounds
  features : List Feature
  filename : Option String
  featureCount : ℕ

/-- The `(key, cell)` assignments performed by the nested `for` loops of
`createGrid` (src/tools/lib/grid.js lines 11 to 36), in row-major source
order. The loop `for (lat = minLat; lat < maxLat; lat += gridSize)` runs
`⌈(maxLat - minLat) / gridSize⌉` times for positive `gridSize`; for
`gridSize = 0` the JS bounds are `NaN` and the loop body never runs, which
the ceiling expression also yields (division by zero is zero in `ℚ`).
Negative `gridSize` makes the JS loop diverge and is outside every claim. -/
def gridEntries (bounds : Bounds) (gridSize : ℚ) : List (String × Cell) :=
  let minLat := ⌊bounds.minLat / gridSize⌋ * gridSize - gridSize
  let maxLat := ⌈bounds.maxLat / gridSize⌉ * gridSize + gridSize
  let minLng := ⌊bounds.minLng / gridSize⌋ * gridSize - gridSize
  let maxLng := ⌈bounds.maxLng / gridSize⌉ * gridSize + gridSize
  let nLat : ℕ := (⌈(maxLat - minLat) / gridSize⌉).toNat
  let nLng : ℕ := (⌈(maxLng - minLng) / gridSize⌉).toNat
  (List.range nLat).flatMap (fun (i : ℕ) =>
    (List.range nLng).map (fun (j : ℕ) =>
      let lat := minLat + (i : ℚ) * gridSize
      let lng := minLng + (j : ℚ) * gridSize
      (getCellKey lat lng gridSize,
        { bounds := { minLat := lat, maxLat := lat + gridSize,
                      minLng := lng, maxLng := lng + gridSize },
          features := [], filename := none, featureCount := 0 })))

/-- `createGrid(bounds, gridSize)`: plays the assignments
`grid[cellKey] = {bounds..., features: []}` of the nested loops, in order,
onto an initially empty object. -/
def createGrid (bounds : Bounds) (gridSize : ℚ) : List (String × Cell) :=
  (gridEntries bounds gridSize).foldl (fun acc e => objSet acc e.1 e.2) []

/-- The min/max fold of `assignFeaturesToGrid` over a feature's
coordinates, starting from `{∞, -∞, ∞, -∞}`; `none` for an empty
coordinate list (in JS the bounds then stay infinite and the assignment
loops run zero times). -/
def featureBounds : List Coord → Option Bounds
  | [] => none
  | (lng, lat) :: rest =>
      some (rest.foldl
        (fun b c => { minLat := min b.minLat c.2, maxLat := max b.maxLat c.2,
                      minLng := min b.minLng c.1, maxLng := max b.maxLng c.1 })
        { minLat := lat, maxLat := lat, minLng := lng, maxLng := lng })

/-- `assignFeaturesToGrid(feature, grid, gridSize)`
(src/tools/lib/grid.js lines 57 to 93): computes the feature's bounding
box, then for every lattice point from `(minLatCell, minLngCell)` to
`(maxLatCell, maxLngCell)` inclusive (step `gridSize`) pushes the feature
onto the existing grid cell with that key; missing keys are skipped. The
inclusive loop `for (lat = minLatCell; lat <= maxLatCell; lat += gridSize)`
runs `⌊(maxLatCell - minLatCell) / gridSize⌋ + 1` times for positive
`gridSize`; for `gridSize = 0` the JS cell bounds are `NaN` and the body
never runs, and negative `gridSize` (JS divergence) is outside every
claim, so both are modelled as zero iterations. -/
def assignFeaturesToGrid (feature : Feature) (grid : List (String × Cell))
    (gridSize : ℚ) : List (String × Cell) :=
  match feature.geometry with
  | none => grid
  | some geom =>
      match featureBounds (getAllCoordinates geom) with
      | none => grid
      | some fb =>
          let minLatCell := ⌊fb.minLat / gridSize⌋ * gridSize
          let maxLatCell := ⌊fb.maxLat / gridSize⌋ * gridSize
          let minLngCell := ⌊fb.minLng / gridSize⌋ * gridSize
          let maxLngCell := ⌊fb.maxLng / gridSize⌋ * gridSize
          let nLat : ℕ := if 0 < gridSize then
            (⌊(maxLatCell - minLatCell) / gridSize⌋ + 1).toNat else 0
          let nLng : ℕ := if 0 < gridSize then
            (⌊(maxLngCell - minLngCell) / gridSize⌋ + 1).toNat else 0
          (List.range nLat).foldl (fun acc (i : ℕ) =>
            (List.range nLng).foldl (fun acc2 (j : ℕ) =>
              objModify acc2
                (getCellKey (minLatCell + (i : ℚ) * gridSize)
                  (minLngCell + (j : ℚ) * gridSize) gridSize)
                (fun c => { c with features := c.features ++ [feature] }))
              acc) grid

/-! ## `writeGridFiles` (src/tools/lib/grid.js lines 146 to 172)

The file-system write is outside the model; the function result is the
state of the grid object after the loop: every non-empty cell is
finalized with its filename and feature count and its feature buffer is
released (JS deletes the array; modelled as the empty list). -/

/-- Grid state after `writeGridFiles(grid, outputDir)`. -/
def writeGridFiles (grid : List (String × Cell)) : List (String × Cell) :=
  grid.map (fun e =>
    if e.2.features.isEmpty then e
    else (e.1, { bounds := e.2.bounds, features := [],
                 filename := some ("parcels_" ++ e.1 ++ ".json"),
                 featureCount := e.2.features.length }))

/-! ## `createIndexFile` (src/tools/lib/grid.js lines 179 to 235) -/

/-- A cell entry of the index document. -/
structure CellEntry : Type where
  bounds : Bounds
  filename : String
  featureCount : ℕ

/-- `metadata` of the index document. The timestamp fields
(`lastUpdated`, `generatedAt`) are wall-clock I/O and are not part of the
model. -/
structure IndexMeta : Type where
  totalCells : ℕ
  totalFeatures : ℕ

/-- The index document. -/
structure Index : Type where
  gridSize : ℚ
  cells : List (String × CellEntry)
  metadata : IndexMeta

/-- The total of `featureCount` over the entries of a cell mapping. -/
def cellsFeatureTotal (cells : List (String × CellEntry)) : ℕ :=
  (cells.map (fun e => e.2.featureCount)).sum

/-- `createIndexFile(grid, outputDir, indexName, gridSize)`: the index
object written to disk. The read of a pre-existing index file at
`indexPath` is modelled by the `existing` argument (`none` when the file
is absent or unreadable; the catch branch then proceeds with an empty
object). Non-empty cells are the grid entries whose `filename` is set;
they are spread over the existing cells (`{...existingCells,
...nonEmptyCells}`: per-key last-write-wins), and the new metadata counts
`Object.keys(mergedCells).length` cells and
`totalExistingFeatures + newFeatures` features. -/
def createIndexFile (grid : List (String × Cell)) (existing : Option Index)
    (gridSize : ℚ) : Index :=
  let nonEmptyCells : List (String × CellEntry) :=
    grid.filterMap (fun e =>
      match e.2.filename with
      | some fn => some (e.1, { bounds := e.2.bounds, filename := fn,
                                featureCount := e.2.featureCount })
      | none => none)
  let existingCells : List (String × CellEntry) :=
    match existing with
    | some idx => idx.cells
    | none => []
  let totalExistingFeatures : ℕ :=
    match existing with
    | some idx => idx.metadata.totalFeatures
    | none => 0
  let mergedCells :=
    nonEmptyCells.foldl (fun acc e => objSet acc e.1 e.2) existingCells
  let newFeatures := cellsFeatureTotal nonEmptyCells
  let totalFeatures := totalExistingFeatures + newFeatures
  { gridSize := gridSize,
    cells := mergedCells,
    metadata := { totalCells := mergedCells.length,
                  totalFeatures := totalFeatures } }

/-! ## `optimizeProperties` (src/tools/lib/optimize.js) -/

/-- `optimizeProperties(properties, propertiesToKeep)`: a falsy
`properties` yields a fresh empty object; otherwise a new object is
populated, in allow-list order, with every listed property whose value in
the source is not `undefined`. The source object is only read, never
written. -/
def optimizeProperties {V : Type} (properties : Option (List (String × V)))
    (propertiesToKeep : List String) : List (String × V) :=
  match properties with
  | none => []
  | some props =>
      propertiesToKeep.foldl (fun optimized prop =>
        match objGet props prop with
        | some v => objSet optimized prop v
        | none => optimized) []

/-! ## `transformCoordinates` (src/tools/lib/projection.js lines 33 to 78) -/

/-- The per-geometry-type coordinate mapping of the `switch` statement in
`transformCoordinates`: each of the six concrete geometry types has its
coordinates rebuilt through `transformPoint`; a geometry type without a
`case` (in particular `GeometryCollection`) falls through the `switch`
unchanged. `transformPoint` itself catches per-point errors and returns
the original point, so it is modelled as a total function. -/
def transformGeometry (transform : Coord → Coord) : Geometry → Geometry
  | .point c => .point (transform c)
  | .lineString cs => .lineString (cs.map transform)
  | .polygon rings => .polygon (rings.map (fun r => r.map transform))
  | .multiPoint cs => .multiPoint (cs.map transform)
  | .multiLineString lines =>
      .multiLineString (lines.map (fun l => l.map transform))
  | .multiPolygon polys =>
      .multiPolygon (polys.map (fun p => p.map (fun r => r.map transform)))
  | .geometryCollection geoms => .geometryCollection geoms

/-- `transformCoordinates(feature, transform)`: returns the feature
unchanged when `transform` is null or the geometry is null/absent,
otherwise the feature with the geometry rebuilt by the `switch`. -/
def transformCoordinates (feature : Feature)
    (transform : Option (Coord → Coord)) : Feature :=
  match transform, feature.geometry with
  | none, _ => feature
  | some _, none => feature
  | some t, some geom => { feature with geometry := some (transformGeometry t geom) }

/-! ## The bounds-scanning first pass of the `process` command

Per-feature body of the first `while` loop of the CLI `process` action:
after the optional reprojection, the code reads
`feature.value.geometry.type` and, for `Polygon` / `MultiPolygon`
geometries, min/max-folds every vertex into the running bounds. Reading
`.type` of a null/absent geometry throws a `TypeError` in JS, modelled as
`Except.error`; the error propagates to the surrounding catch, which
exits the process. -/

/-- Fold one vertex into the running bounds. -/
def foldVertex (b : Bounds) (c : Coord) : Bounds :=
  { minLat := min b.minLat c.2, maxLat := max b.maxLat c.2,
    minLng := min b.minLng c.1, maxLng := max b.maxLng c.1 }

/-- The per-feature bounds update of the first pass. -/
def boundsScanStep (b : Bounds) (feature : Feature) : Except String Bounds :=
  match feature.geometry with
  | none =>
      Except.error "TypeError: Cannot read properties of null (reading type)"
  | some geom =>
      match geom with
      | .polygon rings => Except.ok (rings.flatten.foldl foldVertex b)
      | .multiPolygon polys =>
          Except.ok ((polys.map List.flatten).flatten.foldl foldVertex b)
      | _ => Except.ok b

/-! ## Characterizing grid construction -/

theorem objGet_foldl_objSet {V : Type} (entries : List (String × V))
    (init : List (String × V)) (k : String) :
    objGet (entries.foldl (fun a e => objSet a e.1 e.2) init) k =
      ((entries.reverse.find? (fun e => e.1 == k)).map Prod.snd).or
        (objGet init k) := by
  induction entries generalizing init with
  | nil => simp
  | cons e rest ih =>
      rw [List.foldl_cons, ih, List.reverse_cons, List.find?_append]
      rcases hf : rest.reverse.find? (fun e => e.1 == k) with _ | q
      · simp only [hf, Option.none_or]
        by_cases hk : e.1 = k
        · subst hk
          simp [objGet_objSet_self]
        · have hb : (e.1 == k) = false := by simp [hk]
          simp [List.find?, hb, objGet_objSet_ne _ _ _ _ (Ne.symm hk)]
      · simp [hf]

theorem objGet_createGrid (bounds : Bounds) (gridSize : ℚ) (k : String) :
    objGet (createGrid bounds gridSize) k =
      ((gridEntries bounds gridSize).reverse.find?
        (fun e => e.1 == k)).map Prod.snd := by
  rw [createGrid, objGet_foldl_objSet]
  simp [objGet]

theorem find?_key_of_nodupKeys {V : Type} (l : List (String × V))
    (p : String × V) (hnd : (l.map Prod.fst).Nodup) (hm : p ∈ l) :
    l.find? (fun e => e.1 == p.1) = some p := by
  induction l with
  | nil => cases hm
  | cons q rest ih =>
      rcases List.mem_cons.mp hm with h | h
      · subst h
        simp [List.find?]
      · by_cases hk : q.1 = p.1
        · exfalso
          have : p.1 ∈ rest.map Prod.fst := List.mem_map_of_mem Prod.fst h
          rw [List.map_cons, List.nodup_cons] at hnd
          exact hnd.1 (hk ▸ this)
        · have hb : (q.1 == p.1) = false := by simp [hk]
          simp only [List.find?, hb]
          exact ih (List.nodup_cons.mp (by rwa [List.map_cons] at hnd)).2 h

theorem find?_reverse_key_of_nodupKeys {V : Type} (l : List (String × V))
    (p : String × V) (hnd : (l.map Prod.fst).Nodup) (hm : p ∈ l) :
    l.reverse.find? (fun e => e.1 == p.1) = some p := by
  apply find?_key_of_nodupKeys
  · rw [List.map_reverse]
    exact List.nodup_reverse.mpr hnd
  · exact List.mem_reverse.mpr hm

/-- Every cell produced by the `createGrid` loops starts with an empty
feature list (and no filename). -/
theorem gridEntries_shape (bounds : Bounds) (gridSize : ℚ)
    (e : String × Cell) (he : e ∈ gridEntries bounds gridSize) :
    e.2.features = [] ∧ e.2.filename = none := by
  rw [gridEntries] at he
  simp only [List.mem_flatMap, List.mem_map, List.mem_range] at he
  obtain ⟨i, _, j, _, rfl⟩ := he
  exact ⟨rfl, rfl⟩

theorem mem_range_flatMap_map {A : Type} (f : ℕ → ℕ → A) (nLat nLng i j : ℕ)
    (x : A) (hi : i < nLat) (hj : j < nLng) (hx : x = f i j) :
    x ∈ (List.range nLat).flatMap
      (fun a => (List.range nLng).map (fun b => f a b)) := by
  subst hx
  exact List.mem_flatMap.mpr ⟨i, List.mem_range.mpr hi,
    List.mem_map.mpr ⟨j, List.mem_range.mpr hj, rfl⟩⟩

/-- The lattice assignment performed by the `createGrid` loops at integer
lattice indices `(m, n)`: present whenever `(m, n)` is between the
floor of the minimum and the ceiling of the maximum (the one-cell buffer
gives one extra index on each side). -/
theorem lattice_mem_gridEntries (bounds : Bounds) (gridSize : ℚ) (m n : ℤ)
    (hg : 0 < gridSize)
    (hm1 : ⌊bounds.minLat / gridSize⌋ ≤ m) (hm2 : m ≤ ⌈bounds.maxLat / gridSize⌉)
    (hn1 : ⌊bounds.minLng / gridSize⌋ ≤ n) (hn2 : n ≤ ⌈bounds.maxLng / gridSize⌉) :
    (getCellKey ((m : ℚ) * gridSize) ((n : ℚ) * gridSize) gridSize,
      ({ bounds := { minLat := (m : ℚ) * gridSize,
                     maxLat := (m : ℚ) * gridSize + gridSize,
                     minLng := (n : ℚ) * gridSize,
                     maxLng := (n : ℚ) * gridSize + gridSize },
         features := [], filename := none, featureCount := 0 } : Cell)) ∈
      gridEntries bounds gridSize := by
  have hg0 : gridSize ≠ 0 := ne_of_gt hg
  set mB := ⌊bounds.minLat / gridSize⌋ with hmB
  set MB := ⌈bounds.maxLat / gridSize⌉ with hMB
  set nB := ⌊bounds.minLng / gridSize⌋ with hnB
  set NB := ⌈bounds.maxLng / gridSize⌉ with hNB
  have hcount : ∀ a b : ℤ,
      ((b : ℚ) * gridSize + gridSize - ((a : ℚ) * gridSize - gridSize)) / gridSize
        = ((b - a + 2 : ℤ) : ℚ) := by
    intro a b
    have : (b : ℚ) * gridSize + gridSize - ((a : ℚ) * gridSize - gridSize)
        = ((b - a + 2 : ℤ) : ℚ) * gridSize := by push_cast; ring
    rw [this, mul_div_cancel_right₀ _ hg0]
  simp only [gridEntries]
  refine mem_range_flatMap_map _ _ _ ((m - mB + 1).toNat) ((n - nB + 1).toNat)
    _ ?_ ?_ ?_
  · rw [hcount mB MB, Int.ceil_intCast]
    omega
  · rw [hcount nB NB, Int.ceil_intCast]
    omega
  · have hcm : (((m - mB + 1).toNat : ℤ)) = m - mB + 1 := by omega
    have hcn : (((n - nB + 1).toNat : ℤ)) = n - nB + 1 := by omega
    have hla : (mB : ℚ) * gridSize - gridSize
        + ((m - mB + 1).toNat : ℚ) * gridSize = (m : ℚ) * gridSize := by
      have hq : ((m - mB + 1).toNat : ℚ) = ((m - mB + 1 : ℤ) : ℚ) := by
        exact_mod_cast hcm
      rw [hq]
      push_cast
      ring
    have hln : (nB : ℚ) * gridSize - gridSize
        + ((n - nB + 1).toNat : ℚ) * gridSize = (n : ℚ) * gridSize := by
      have hq : ((n - nB + 1).toNat : ℚ) = ((n - nB + 1 : ℤ) : ℚ) := by
        exact_mod_cast hcn
      rw [hq]
      push_cast
      ring
    rw [hla, hln]

/-! ## Helper lemmas for `optimizeProperties` -/

/-- The per-property step of `optimizeProperties`. -/
def optStep {V : Type} (props : List (String × V))
    (optimized : List (String × V)) (prop : String) : List (String × V) :=
  match objGet props prop with
  | some v => objSet optimized prop v
  | none => optimized

theorem optimizeProperties_eq_foldl {V : Type} (props : List (String × V))
    (keep : List String) :
    optimizeProperties (some props) keep = keep.foldl (optStep props) [] := rfl

theorem objGet_optStep_foldl {V : Type} (props : List (String × V))
    (keep : List String) (acc : List (String × V)) (k : String) :
    objGet (keep.foldl (optStep props) acc) k =
      if k ∈ keep ∧ (objGet props k).isSome then objGet props k
      else objGet acc k := by
  induction keep generalizing acc with
  | nil => simp
  | cons p rest ih =>
      rw [List.foldl_cons, ih]
      by_cases hk : k = p
      · subst hk
        rcases hv : objGet props k with _ | v
        · have hstep : optStep props acc k = acc := by simp [optStep, hv]
          rw [hstep]
          by_cases hr : k ∈ rest <;> simp [hr, hv]
        · have hstep : optStep props acc k = objSet acc k v := by
            simp [optStep, hv]
          rw [hstep]
          by_cases hr : k ∈ rest <;>
            simp [hr, hv, objGet_objSet_self]
      · have hiff : k ∈ p :: rest ↔ k ∈ rest := by simp [List.mem_cons, hk]
        rcases hv : objGet props p with _ | v
        · have hstep : optStep props acc p = acc := by simp [optStep, hv]
          rw [hstep]
          by_cases hr : k ∈ rest <;> simp [hr, hiff]
        · have hstep : optStep props acc p = objSet acc p v := by
            simp [optStep, hv]
          rw [hstep, objGet_objSet_ne _ _ _ _ hk]
          by_cases hr : k ∈ rest <;> simp [hr, hiff]

theorem objGet_optimizeProperties {V : Type} (props : List (String × V))
    (keep : List String) (k : String) :
    objGet (optimizeProperties (some props) keep) k =
      if k ∈ keep then objGet props k else none := by
  rw [optimizeProperties_eq_foldl, objGet_optStep_foldl]
  by_cases hk : k ∈ keep
  · rcases hv : objGet props k with _ | v <;> simp [hk, hv, objGet]
  · simp [hk, objGet]

theorem optStep_foldl_congr {V : Type} (p q : List (String × V))
    (keep : List String) (h : ∀ k ∈ keep, objGet p k = objGet q k)
    (acc : List (String × V)) :
    keep.foldl (optStep p) acc = keep.foldl (optStep q) acc := by
  induction keep generalizing acc with
  | nil => rfl
  | cons x rest ih =>
      rw [List.foldl_cons, List.foldl_cons]
      have hx : objGet p x = objGet q x := h x (List.mem_cons_self x rest)
      have hstep : optStep p acc x = optStep q acc x := by
        rw [optStep, optStep, hx]
      rw [hstep]
      exact ih (fun k hk => h k (List.mem_cons_of_mem x hk)) _

theorem optStep_foldl_empty {V : Type} (keep : List String)
    (acc : List (String × V)) :
    keep.foldl (optStep ([] : List (String × V))) acc = acc := by
  induction keep generalizing acc with
  | nil => rfl
  | cons x rest ih =>
      rw [List.foldl_cons]
      have : optStep ([] : List (String × V)) acc x = acc := rfl
      rw [this, ih]

/-! ## Claim C2 -/

/-- Modelled from the spec: the reference cell key, the pair
`(floor(lat/gridSize)*gridSize, floor(lng/gridSize)*gridSize)` with each
component formatted to exactly six fixed decimal digits and joined with
an underscore. -/
def cellKeySpec (lat lng gridSize : ℚ) : String :=
  toFixed6 (⌊lat / gridSize⌋ * gridSize) ++ "_" ++
    toFixed6 (⌊lng / gridSize⌋ * gridSize)

/-- **C2**: for all `lat`, `lng` and `gridSize`, `getCellKey` is a pure
deterministic function equal to the reference definition (floor-division
cells, six fixed decimal digits, joined with an underscore); two calls on
identical inputs yield the identical string — in this pure embedding the
second conjunct is reflexivity, which is exactly the independence from
any other state. -/
theorem getCellKey_matches_spec_and_deterministic :
    ∀ lat lng gridSize : ℚ,
      getCellKey lat lng gridSize = cellKeySpec lat lng gridSize ∧
      getCellKey lat lng gridSize = getCellKey lat lng gridSize :=
  fun _ _ _ => ⟨rfl, rfl⟩

/-! ## Claim C5 -/

/-- **C5** counterexample: called with `gridSize = 0` (a non-positive
grid size) on ordinary bounds, `createGrid` does not fail or abort: it
returns normally with a grid object (the empty one). There is no
validation of `gridSize` anywhere in `createGrid` or its caller. -/
theorem createGrid_zero_gridSize_returns_counterexample :
    createGrid { minLat := 33, maxLat := 34, minLng := -113, maxLng := -112 }
      0 = [] := by
  simp [createGrid, gridEntries]

/-- **C5** amended: `createGrid` performs no grid-size validation; with
`gridSize = 0` it returns the empty grid for every bounds value (the JS
loop bounds are `NaN` and no cell is created), and the run continues
normally instead of aborting. -/
theorem createGrid_zero_gridSize_returns_empty (bounds : Bounds) :
    createGrid bounds 0 = [] := by
  simp [createGrid, gridEntries]

/-! ## Claim C6 -/

/-- **C6**: in the bounds-scanning first pass, a feature whose geometry
is null or absent is not skipped: the unguarded read of
`feature.value.geometry.type` raises a `TypeError`, so the pass aborts
instead of completing with the bounds unchanged. -/
theorem boundsScanStep_null_geometry_throws :
    ∀ (b : Bounds) (props : List (String × String)),
      boundsScanStep b { geometry := none, properties := props } =
        Except.error
          "TypeError: Cannot read properties of null (reading type)" :=
  fun _ _ => rfl

/-! ## Claim C7 -/

/-- **C7**: `optimizeProperties` is idempotent for every attribute
mapping (including a null one) and every allow-list, and a single
application yields a mapping whose lookups are exactly the allow-listed
fields present (not `undefined`) in the source, with unchanged values.
The embedding is pure, so the source mapping is never mutated. -/
theorem optimizeProperties_idempotent_and_exact :
    ∀ (V : Type) (properties : Option (List (String × V)))
      (keep : List String),
      optimizeProperties (some (optimizeProperties properties keep)) keep =
        optimizeProperties properties keep ∧
      ∀ k, objGet (optimizeProperties properties keep) k =
        if k ∈ keep then
          (match properties with
           | some props => objGet props k
           | none => none)
        else none := by
  intro V properties keep
  rcases properties with _ | props
  · constructor
    · show List.foldl (optStep []) [] keep = []
      exact optStep_foldl_empty keep []
    · intro k
      show objGet ([] : List (String × V)) k = _
      simp [objGet]
  · constructor
    · rw [optimizeProperties_eq_foldl, optimizeProperties_eq_foldl]
      apply optStep_foldl_congr
      intro k hk
      rw [← optimizeProperties_eq_foldl, objGet_optimizeProperties]
      simp [hk]
    · intro k
      exact objGet_optimizeProperties props keep k

/-! ## Claim C8 -/

theorem objGet_isSome_foldl_objSet {V : Type} (entries : List (String × V))
    (acc : List (String × V)) (k : String)
    (h : (objGet acc k).isSome) :
    (objGet (entries.foldl (fun a e => objSet a e.1 e.2) acc) k).isSome := by
  induction entries generalizing acc with
  | nil => exact h
  | cons e rest ih =>
      rw [List.foldl_cons]
      exact ih _ (objGet_isSome_objSet _ _ _ _ h)

/-- **C8**: the index written by `createIndexFile` always carries the
current run gridSize: a prior index gridSize is unconditionally
overwritten on merge, while every cell entry keyed under the prior run
(possibly with a different gridSize) survives into the merged mapping. -/
theorem createIndexFile_gridSize_overwritten :
    ∀ (grid : List (String × Cell)) (prior : Index) (gridSize : ℚ),
      (createIndexFile grid (some prior) gridSize).gridSize = gridSize ∧
      ∀ k, (objGet prior.cells k).isSome →
        (objGet (createIndexFile grid (some prior) gridSize).cells k).isSome := by
  intro grid prior gridSize
  refine ⟨rfl, ?_⟩
  intro k hk
  exact objGet_isSome_foldl_objSet _ _ _ hk

/-- Concrete prior index for the **C8** witness: one cell recorded under
gridSize `0.01`. -/
def c8prior : Index :=
  { gridSize := 1/100,
    cells := [("33.120000_-112.130000",
      { bounds := { minLat := 33.12, maxLat := 33.13,
                    minLng := -112.13, maxLng := -112.12 },
        filename := "parcels_33.120000_-112.130000.json",
        featureCount := 2 })],
    metadata := { totalCells := 1, totalFeatures := 2 } }

/-- **C8** witness: merging an empty run over `c8prior` with the new
gridSize `0.02` keeps the old cell and rewrites `gridSize`. -/
theorem createIndexFile_gridSize_overwritten_witness :
    (objGet c8prior.cells "33.120000_-112.130000").isSome ∧
    (objGet (createIndexFile [] (some c8prior) (2/100)).cells
      "33.120000_-112.130000").isSome :=
  ⟨by decide,
    (createIndexFile_gridSize_overwritten [] c8prior (2/100)).2
      "33.120000_-112.130000" (by decide)⟩

/-! ## Claim C9 -/

theorem attach_flatMap_eq {A B : Type} (l : List A) (f : A → List B) :
    l.attach.flatMap (fun x => f x.1) = (l.map f).flatten := by
  rw [List.flatMap_def, List.attach_map_coe]

/-- **C9**: for a `GeometryCollection` feature and a non-null transform,
`transformCoordinates` returns the feature with every nested coordinate
unchanged (the `switch` has no `GeometryCollection` case), even though
`getAllCoordinates` — used by bounds computation and cell assignment —
does recurse into the collection members. -/
theorem transformCoordinates_skips_geometryCollection :
    ∀ (geoms : List Geometry) (props : List (String × String))
      (transform : Coord → Coord),
      transformCoordinates
          { geometry := some (Geometry.geometryCollection geoms),
            properties := props } (some transform) =
        { geometry := some (Geometry.geometryCollection geoms),
          properties := props } ∧
      getAllCoordinates (Geometry.geometryCollection geoms) =
        (geoms.map getAllCoordinates).flatten := by
  intro geoms props transform
  constructor
  · rfl
  · rw [getAllCoordinates]
    exact attach_flatMap_eq geoms getAllCoordinates

/-! ## Claim C10 -/

/-- **C10**: a null or undefined attribute mapping makes
`optimizeProperties` return the empty mapping, not an error, for every
allow-list. -/
theorem optimizeProperties_null_properties_empty :
    ∀ (V : Type) (keep : List String),
      optimizeProperties (none : Option (List (String × V))) keep = [] :=
  fun _ _ => rfl

/-! ## Claim C1 -/

/-- A one-cell grid holding a single feature, before tile writing. -/
def c1grid : List (String × Cell) :=
  [("33.120000_-112.130000",
    { bounds := { minLat := 33.12, maxLat := 33.13,
                  minLng := -112.13, maxLng := -112.12 },
      features := [{ geometry := none, properties := [] }],
      filename := none, featureCount := 0 })]

/-- The same grid, freshly finalized by the tile writer. -/
def c1written : List (String × Cell) := writeGridFiles c1grid

/-- Index produced by a first run over `c1written` (no prior index). -/
def c1prior : Index := createIndexFile c1written none (1/100)

/-- Index produced by re-merging the identical finalized cell set over
`c1prior`. -/
def c1second : Index := createIndexFile c1written (some c1prior) (1/100)

/-- **C1**: fails on the code. `createIndexFile` recomputes
`metadata.totalCells` from the merged mapping but computes
`metadata.totalFeatures` additively (`existing total + new features`),
so a key overwrite double-counts: here the prior index satisfies the
invariant (1 cell, 1 feature, sum 1), and re-merging the identical
finalized cell set keeps one merged cell summing to 1 feature, yet the
written `totalFeatures` is 2. -/
theorem createIndexFile_double_counts_on_remerge :
    c1prior.metadata.totalFeatures = cellsFeatureTotal c1prior.cells ∧
    c1prior.metadata.totalCells = c1prior.cells.length ∧
    c1second.metadata.totalCells = 1 ∧
    cellsFeatureTotal c1second.cells = 1 ∧
    c1second.metadata.totalFeatures = 2 := by decide

/-! ## Claim C4 -/

/-- The cell keys played onto the grid object by `createGrid`, in
assignment order. -/
def gridKeys (bounds : Bounds) (gridSize : ℚ) : List String :=
  (gridEntries bounds gridSize).map Prod.fst

/-- A coordinate lies inside a bounds rectangle (boundaries included). -/
def inCellBounds (b : Bounds) (lat lng : ℚ) : Prop :=
  b.minLat ≤ lat ∧ lat ≤ b.maxLat ∧ b.minLng ≤ lng ∧ lng ≤ b.maxLng

instance (b : Bounds) (lat lng : ℚ) : Decidable (inCellBounds b lat lng) :=
  inferInstanceAs (Decidable (_ ∧ _ ∧ _ ∧ _))

theorem objGet_createGrid_of_nodup (bounds : Bounds) (gridSize : ℚ)
    (e : String × Cell) (hnd : (gridKeys bounds gridSize).Nodup)
    (he : e ∈ gridEntries bounds gridSize) :
    objGet (createGrid bounds gridSize) e.1 = some e.2 := by
  rw [objGet_createGrid, find?_reverse_key_of_nodupKeys _ e hnd he]
  rfl

theorem mem_of_objGet {V : Type} (l : List (String × V)) (k : String) (c : V)
    (h : objGet l k = some c) : (k, c) ∈ l := by
  induction l with
  | nil => exact absurd h (by simp [objGet])
  | cons e rest ih =>
      rw [objGet] at h
      by_cases hk : e.1 = k
      · rw [if_pos hk] at h
        have : e = (k, c) := by
          obtain ⟨e1, e2⟩ := e
          simp_all
        exact this ▸ List.mem_cons_self e rest
      · rw [if_neg hk] at h
        exact List.mem_cons_of_mem e (ih h)

/-- **C4** amended: for gridSize > 0, a non-empty bounds and any
coordinate inside it, the grid of `createGrid` has a cell whose stored
bounds contain the coordinate (boundary coordinates included) —
*provided* the `toFixed(6)` cell keys of the enumerated lattice are
pairwise distinct (true e.g. whenever gridSize is at least `10^-6`;
for smaller grid sizes distinct lattice cells collide on one key and
entries are overwritten, losing coverage). -/
theorem createGrid_covers_bounds (bounds : Bounds) (gridSize lat lng : ℚ)
    (hg : 0 < gridSize)
    (hnd : (gridKeys bounds gridSize).Nodup)
    (hin : inCellBounds bounds lat lng) :
    ∃ k c, objGet (createGrid bounds gridSize) k = some c ∧
      inCellBounds c.bounds lat lng := by
  obtain ⟨h1, h2, h3, h4⟩ := hin
  have hg0 : gridSize ≠ 0 := ne_of_gt hg
  set m := ⌊lat / gridSize⌋ with hm
  set n := ⌊lng / gridSize⌋ with hn
  have hm1 : ⌊bounds.minLat / gridSize⌋ ≤ m := Int.floor_mono (by gcongr)
  have hm2 : m ≤ ⌈bounds.maxLat / gridSize⌉ :=
    le_trans (Int.floor_mono (by gcongr)) (Int.floor_le_ceil _)
  have hn1 : ⌊bounds.minLng / gridSize⌋ ≤ n := Int.floor_mono (by gcongr)
  have hn2 : n ≤ ⌈bounds.maxLng / gridSize⌉ :=
    le_trans (Int.floor_mono (by gcongr)) (Int.floor_le_ceil _)
  have hmem := lattice_mem_gridEntries bounds gridSize m n hg hm1 hm2 hn1 hn2
  refine ⟨getCellKey ((m : ℚ) * gridSize) ((n : ℚ) * gridSize) gridSize,
    _, objGet_createGrid_of_nodup _ _ _ hnd hmem, ?_⟩
  have hflat : (m : ℚ) * gridSize ≤ lat := by
    have h5 : (m : ℚ) ≤ lat / gridSize := Int.floor_le _
    calc (m : ℚ) * gridSize ≤ lat / gridSize * gridSize :=
          mul_le_mul_of_nonneg_right h5 hg.le
      _ = lat := div_mul_cancel₀ _ hg0
  have hflat2 : lat ≤ (m : ℚ) * gridSize + gridSize := by
    have h5 : lat / gridSize < (m : ℚ) + 1 := Int.lt_floor_add_one _
    have h6 : lat < ((m : ℚ) + 1) * gridSize := by
      calc lat = lat / gridSize * gridSize := (div_mul_cancel₀ _ hg0).symm
        _ < ((m : ℚ) + 1) * gridSize := mul_lt_mul_of_pos_right h5 hg
    have h7 : ((m : ℚ) + 1) * gridSize = (m : ℚ) * gridSize + gridSize := by
      ring
    linarith
  have hflng : (n : ℚ) * gridSize ≤ lng := by
    have h5 : (n : ℚ) ≤ lng / gridSize := Int.floor_le _
    calc (n : ℚ) * gridSize ≤ lng / gridSize * gridSize :=
          mul_le_mul_of_nonneg_right h5 hg.le
      _ = lng := div_mul_cancel₀ _ hg0
  have hflng2 : lng ≤ (n : ℚ) * gridSize + gridSize := by
    have h5 : lng / gridSize < (n : ℚ) + 1 := Int.lt_floor_add_one _
    have h6 : lng < ((n : ℚ) + 1) * gridSize := by
      calc lng = lng / gridSize * gridSize := (div_mul_cancel₀ _ hg0).symm
        _ < ((n : ℚ) + 1) * gridSize := mul_lt_mul_of_pos_right h5 hg
    have h7 : ((n : ℚ) + 1) * gridSize = (n : ℚ) * gridSize + gridSize := by
      ring
    linarith
  exact ⟨hflat, hflat2, hflng, hflng2⟩

/-- Concrete bounds for the **C4** witness. -/
def c4bounds : Bounds := { minLat := 0, maxLat := 1, minLng := 0, maxLng := 1 }

/-- **C4** witness: with gridSize 1 on the unit square, the interior
point `(0.5, 0.5)` is covered by a generated cell. -/
theorem createGrid_covers_bounds_witness :
    ((0 : ℚ) < 1 ∧ (gridKeys c4bounds 1).Nodup ∧
      inCellBounds c4bounds (1/2) (1/2)) ∧
    (∃ k c, objGet (createGrid c4bounds 1) k = some c ∧
      inCellBounds c.bounds (1/2) (1/2)) :=
  ⟨⟨by norm_num, of_decide_eq_true (by with_unfolding_all rfl),
      of_decide_eq_true (by with_unfolding_all rfl)⟩,
    createGrid_covers_bounds c4bounds 1 (1/2) (1/2) (by norm_num)
      (of_decide_eq_true (by with_unfolding_all rfl))
      (of_decide_eq_true (by with_unfolding_all rfl))⟩

/-- Concrete bounds for the **C4** counterexample: a square of side
`2 * 10^-7`. -/
def c4cexBounds : Bounds :=
  { minLat := 0, maxLat := 2/10000000, minLng := 0, maxLng := 2/10000000 }

/-- **C4** counterexample: with `gridSize = 10^-7 > 0`, the `toFixed(6)`
keys of distinct lattice cells collide, later cells overwrite earlier
ones, and the in-bounds coordinate `(10^-7, 10^-7)` lies in no stored
cell bounds of the generated grid — the claim as stated (for every
gridSize > 0) fails. -/
theorem createGrid_covers_bounds_counterexample :
    ((0 : ℚ) < 1/10000000 ∧
      inCellBounds c4cexBounds (1/10000000) (1/10000000)) ∧
    ¬ ∃ k c, objGet (createGrid c4cexBounds (1/10000000)) k = some c ∧
        inCellBounds c.bounds (1/10000000) (1/10000000) := by
  constructor
  · exact ⟨by norm_num, of_decide_eq_true (by with_unfolding_all rfl)⟩
  · rintro ⟨k, c, hget, hinc⟩
    have hmem := mem_of_objGet _ _ _ hget
    have hall : ∀ e ∈ createGrid c4cexBounds (1/10000000),
        ¬ inCellBounds e.2.bounds (1/10000000) (1/10000000) :=
      of_decide_eq_true (by with_unfolding_all rfl)
    exact hall (k, c) hmem hinc

/-! ## Claim C3 -/

/-- The cell key of the lattice cell `(i, j)` cells up/right of the cell
containing a feature-bounds minimum corner — exactly the keys visited by
the assignment loops of `assignFeaturesToGrid`. -/
def spanKey (fb : Bounds) (gridSize : ℚ) (i j : ℕ) : String :=
  getCellKey (↑⌊fb.minLat / gridSize⌋ * gridSize + (i : ℚ) * gridSize)
    (↑⌊fb.minLng / gridSize⌋ * gridSize + (j : ℚ) * gridSize) gridSize

theorem objGet_createGrid_isSome_of_mem (bounds : Bounds) (gridSize : ℚ)
    (k : String) (hk : ∃ e ∈ gridEntries bounds gridSize, e.1 = k) :
    ∃ c, objGet (createGrid bounds gridSize) k = some c ∧ c.features = [] := by
  rw [objGet_createGrid]
  obtain ⟨e, hem, hek⟩ := hk
  have hs : ((gridEntries bounds gridSize).reverse.find?
      (fun q => q.1 == k)).isSome := by
    rw [List.find?_isSome]
    exact ⟨e, List.mem_reverse.mpr hem, by simp [hek]⟩
  obtain ⟨q, hq⟩ := Option.isSome_iff_exists.mp hs
  have hqm : q ∈ gridEntries bounds gridSize :=
    List.mem_reverse.mp (List.mem_of_find?_eq_some hq)
  refine ⟨q.2, ?_, (gridEntries_shape _ _ q hqm).1⟩
  rw [hq]
  rfl

/-- The four cells spanned by a feature whose bounding box covers a
2 by 2 cell block are all present in the grid built from any enclosing
bounds, each with an empty feature list. -/
theorem spanKey_present (bounds fb : Bounds) (gridSize : ℚ)
    (hg : 0 < gridSize)
    (hsLat : ⌊fb.maxLat / gridSize⌋ = ⌊fb.minLat / gridSize⌋ + 1)
    (hsLng : ⌊fb.maxLng / gridSize⌋ = ⌊fb.minLng / gridSize⌋ + 1)
    (hc1 : bounds.minLat ≤ fb.minLat) (hc2 : fb.maxLat ≤ bounds.maxLat)
    (hc3 : bounds.minLng ≤ fb.minLng) (hc4 : fb.maxLng ≤ bounds.maxLng)
    (i j : ℕ) (hi : i ≤ 1) (hj : j ≤ 1) :
    ∃ c, objGet (createGrid bounds gridSize) (spanKey fb gridSize i j) =
      some c ∧ c.features = [] := by
  apply objGet_createGrid_isSome_of_mem
  have hm1 : ⌊bounds.minLat / gridSize⌋ ≤ ⌊fb.minLat / gridSize⌋ + (i : ℤ) := by
    have h0 : ⌊bounds.minLat / gridSize⌋ ≤ ⌊fb.minLat / gridSize⌋ :=
      Int.floor_mono (by gcongr)
    omega
  have hm2 : ⌊fb.minLat / gridSize⌋ + (i : ℤ) ≤ ⌈bounds.maxLat / gridSize⌉ := by
    have h0 : ⌊fb.maxLat / gridSize⌋ ≤ ⌊bounds.maxLat / gridSize⌋ :=
      Int.floor_mono (by gcongr)
    have h1 : ⌊bounds.maxLat / gridSize⌋ ≤ ⌈bounds.maxLat / gridSize⌉ :=
      Int.floor_le_ceil _
    omega
  have hn1 : ⌊bounds.minLng / gridSize⌋ ≤ ⌊fb.minLng / gridSize⌋ + (j : ℤ) := by
    have h0 : ⌊bounds.minLng / gridSize⌋ ≤ ⌊fb.minLng / gridSize⌋ :=
      Int.floor_mono (by gcongr)
    omega
  have hn2 : ⌊fb.minLng / gridSize⌋ + (j : ℤ) ≤ ⌈bounds.maxLng / gridSize⌉ := by
    have h0 : ⌊fb.maxLng / gridSize⌋ ≤ ⌊bounds.maxLng / gridSize⌋ :=
      Int.floor_mono (by gcongr)
    have h1 : ⌊bounds.maxLng / gridSize⌋ ≤ ⌈bounds.maxLng / gridSize⌉ :=
      Int.floor_le_ceil _
    omega
  refine ⟨_, lattice_mem_gridEntries bounds gridSize
    (⌊fb.minLat / gridSize⌋ + (i : ℤ)) (⌊fb.minLng / gridSize⌋ + (j : ℤ))
    hg hm1 hm2 hn1 hn2, ?_⟩
  have e1 : ((↑(⌊fb.minLat / gridSize⌋ + (i : ℤ)) : ℚ)) * gridSize =
      ↑⌊fb.minLat / gridSize⌋ * gridSize + (i : ℚ) * gridSize := by
    push_cast
    ring
  have e2 : ((↑(⌊fb.minLng / gridSize⌋ + (j : ℤ)) : ℚ)) * gridSize =
      ↑⌊fb.minLng / gridSize⌋ * gridSize + (j : ℚ) * gridSize := by
    push_cast
    ring
  rw [spanKey, e1, e2]

/-- **C3** amended: a polygon feature whose bounding box spans exactly
two grid cells in latitude and two in longitude (floor-division span),
lying inside the computed bounds the grid was built from, is appended by
`assignFeaturesToGrid` exactly once to each of those four cells, and the
lookup of every other key is left unchanged — *provided* the four
`toFixed(6)` cell keys are pairwise distinct (true e.g. whenever
gridSize is at least `10^-6`; for smaller grid sizes the four lattice
cells can collapse onto fewer string keys). -/
theorem assignFeaturesToGrid_two_by_two (bounds fb : Bounds) (gridSize : ℚ)
    (rings : List (List Coord)) (props : List (String × String))
    (hg : 0 < gridSize)
    (hfb : featureBounds
      (getAllCoordinates (Geometry.polygon rings)) = some fb)
    (hsLat : ⌊fb.maxLat / gridSize⌋ = ⌊fb.minLat / gridSize⌋ + 1)
    (hsLng : ⌊fb.maxLng / gridSize⌋ = ⌊fb.minLng / gridSize⌋ + 1)
    (hc1 : bounds.minLat ≤ fb.minLat) (hc2 : fb.maxLat ≤ bounds.maxLat)
    (hc3 : bounds.minLng ≤ fb.minLng) (hc4 : fb.maxLng ≤ bounds.maxLng)
    (hk1 : spanKey fb gridSize 0 0 ≠ spanKey fb gridSize 0 1)
    (hk2 : spanKey fb gridSize 0 0 ≠ spanKey fb gridSize 1 0)
    (hk3 : spanKey fb gridSize 0 0 ≠ spanKey fb gridSize 1 1)
    (hk4 : spanKey fb gridSize 0 1 ≠ spanKey fb gridSize 1 0)
    (hk5 : spanKey fb gridSize 0 1 ≠ spanKey fb gridSize 1 1)
    (hk6 : spanKey fb gridSize 1 0 ≠ spanKey fb gridSize 1 1) :
    (∀ i j : ℕ, i ≤ 1 → j ≤ 1 → ∃ c,
      objGet (assignFeaturesToGrid
          { geometry := some (Geometry.polygon rings), properties := props }
          (createGrid bounds gridSize) gridSize)
        (spanKey fb gridSize i j) = some c ∧
      c.features = [{ geometry := some (Geometry.polygon rings),
                      properties := props }]) ∧
    (∀ k, (∀ i j : ℕ, i ≤ 1 → j ≤ 1 → k ≠ spanKey fb gridSize i j) →
      objGet (assignFeaturesToGrid
          { geometry := some (Geometry.polygon rings), properties := props }
          (createGrid bounds gridSize) gridSize) k =
        objGet (createGrid bounds gridSize) k) := by
  have hg0 : gridSize ≠ 0 := ne_of_gt hg
  have hassign : assignFeaturesToGrid
      { geometry := some (Geometry.polygon rings), properties := props }
      (createGrid bounds gridSize) gridSize =
      objModify (objModify (objModify (objModify (createGrid bounds gridSize)
        (spanKey fb gridSize 0 0)
        (fun c => { c with features := c.features ++
          [{ geometry := some (Geometry.polygon rings),
             properties := props }] }))
        (spanKey fb gridSize 0 1)
        (fun c => { c with features := c.features ++
          [{ geometry := some (Geometry.polygon rings),
             properties := props }] }))
        (spanKey fb gridSize 1 0)
        (fun c => { c with features := c.features ++
          [{ geometry := some (Geometry.polygon rings),
             properties := props }] }))
        (spanKey fb gridSize 1 1)
        (fun c => { c with features := c.features ++
          [{ geometry := some (Geometry.polygon rings),
             properties := props }] }) := by
    rw [assignFeaturesToGrid]
    simp only [hfb]
    rw [hsLat, hsLng]
    have hq1 : ((↑(⌊fb.minLat / gridSize⌋ + 1) : ℚ) * gridSize -
        ↑⌊fb.minLat / gridSize⌋ * gridSize) / gridSize = 1 := by
      have h0 : (↑(⌊fb.minLat / gridSize⌋ + 1) : ℚ) * gridSize -
          ↑⌊fb.minLat / gridSize⌋ * gridSize = gridSize := by
        push_cast
        ring
      rw [h0, div_self hg0]
    have hq2 : ((↑(⌊fb.minLng / gridSize⌋ + 1) : ℚ) * gridSize -
        ↑⌊fb.minLng / gridSize⌋ * gridSize) / gridSize = 1 := by
      have h0 : (↑(⌊fb.minLng / gridSize⌋ + 1) : ℚ) * gridSize -
          ↑⌊fb.minLng / gridSize⌋ * gridSize = gridSize := by
        push_cast
        ring
      rw [h0, div_self hg0]
    rw [hq1, hq2, if_pos hg, Int.floor_one]
    have h2 : ((1 : ℤ) + 1).toNat = 2 := rfl
    rw [h2]
    have hr2 : List.range 2 = [0, 1] := rfl
    rw [hr2]
    simp only [List.foldl_cons, List.foldl_nil, spanKey]
  constructor
  · intro i j hi hj
    have hio : i = 0 ∨ i = 1 := by omega
    have hjo : j = 0 ∨ j = 1 := by omega
    rcases hio with rfl | rfl <;> rcases hjo with rfl | rfl
    · obtain ⟨c, hc, hcf⟩ := spanKey_present bounds fb gridSize hg
        hsLat hsLng hc1 hc2 hc3 hc4 0 0 (by omega) (by omega)
      refine ⟨{ c with features := c.features ++
        [{ geometry := some (Geometry.polygon rings),
           properties := props }] }, ?_, ?_⟩
      · rw [hassign,
          objGet_objModify_ne _ _ _ _ hk3,
          objGet_objModify_ne _ _ _ _ hk2,
          objGet_objModify_ne _ _ _ _ hk1,
          objGet_objModify_self, hc]
        rfl
      · show c.features ++ _ = _
        rw [hcf]
        rfl
    · obtain ⟨c, hc, hcf⟩ := spanKey_present bounds fb gridSize hg
        hsLat hsLng hc1 hc2 hc3 hc4 0 1 (by omega) (by omega)
      refine ⟨{ c with features := c.features ++
        [{ geometry := some (Geometry.polygon rings),
           properties := props }] }, ?_, ?_⟩
      · rw [hassign,
          objGet_objModify_ne _ _ _ _ hk5,
          objGet_objModify_ne _ _ _ _ hk4,
          objGet_objModify_self,
          objGet_objModify_ne _ _ _ _ (Ne.symm hk1), hc]
        rfl
      · show c.features ++ _ = _
        rw [hcf]
        rfl
    · obtain ⟨c, hc, hcf⟩ := spanKey_present bounds fb gridSize hg
        hsLat hsLng hc1 hc2 hc3 hc4 1 0 (by omega) (by omega)
      refine ⟨{ c with features := c.features ++
        [{ geometry := some (Geometry.polygon rings),
           properties := props }] }, ?_, ?_⟩
      · rw [hassign,
          objGet_objModify_ne _ _ _ _ hk6,
          objGet_objModify_self,
          objGet_objModify_ne _ _ _ _ (Ne.symm hk4),
          objGet_objModify_ne _ _ _ _ (Ne.symm hk2), hc]
        rfl
      · show c.features ++ _ = _
        rw [hcf]
        rfl
    · obtain ⟨c, hc, hcf⟩ := spanKey_present bounds fb gridSize hg
        hsLat hsLng hc1 hc2 hc3 hc4 1 1 (by omega) (by omega)
      refine ⟨{ c with features := c.features ++
        [{ geometry := some (Geometry.polygon rings),
           properties := props }] }, ?_, ?_⟩
      · rw [hassign,
          objGet_objModify_self,
          objGet_objModify_ne _ _ _ _ (Ne.symm hk6),
          objGet_objModify_ne _ _ _ _ (Ne.symm hk5),
          objGet_objModify_ne _ _ _ _ (Ne.symm hk3), hc]
        rfl
      · show c.features ++ _ = _
        rw [hcf]
        rfl
  · intro k hk
    rw [hassign,
      objGet_objModify_ne _ _ _ _ (hk 1 1 (by omega) (by omega)),
      objGet_objModify_ne _ _ _ _ (hk 1 0 (by omega) (by omega)),
      objGet_objModify_ne _ _ _ _ (hk 0 1 (by omega) (by omega)),
      objGet_objModify_ne _ _ _ _ (hk 0 0 (by omega) (by omega))]

/-- Unit-square polygon ring spanning lat and lng `0.5 .. 1.5`
(coordinates in GeoJSON `(lng, lat)` order). -/
def c3rings : List (List Coord) :=
  [[(1/2, 1/2), (3/2, 1/2), (3/2, 3/2), (1/2, 3/2), (1/2, 1/2)]]

/-- The bounding box of `c3rings`. -/
def c3fb : Bounds :=
  { minLat := 1/2, maxLat := 3/2, minLng := 1/2, maxLng := 3/2 }

/-- **C3** witness: with gridSize 1, the polygon of `c3rings` spans the
2 by 2 block of cells `(0,0) .. (1,1)` and lands once in each of the
four cells and nowhere else. -/
theorem assignFeaturesToGrid_two_by_two_witness :
    ((0 : ℚ) < 1 ∧
     featureBounds (getAllCoordinates (Geometry.polygon c3rings)) =
       some c3fb ∧
     ⌊c3fb.maxLat / 1⌋ = ⌊c3fb.minLat / 1⌋ + 1 ∧
     ⌊c3fb.maxLng / 1⌋ = ⌊c3fb.minLng / 1⌋ + 1 ∧
     spanKey c3fb 1 0 0 ≠ spanKey c3fb 1 0 1 ∧
     spanKey c3fb 1 0 0 ≠ spanKey c3fb 1 1 0 ∧
     spanKey c3fb 1 0 0 ≠ spanKey c3fb 1 1 1 ∧
     spanKey c3fb 1 0 1 ≠ spanKey c3fb 1 1 0 ∧
     spanKey c3fb 1 0 1 ≠ spanKey c3fb 1 1 1 ∧
     spanKey c3fb 1 1 0 ≠ spanKey c3fb 1 1 1) ∧
    ((∀ i j : ℕ, i ≤ 1 → j ≤ 1 → ∃ c,
      objGet (assignFeaturesToGrid
          { geometry := some (Geometry.polygon c3rings), properties := [] }
          (createGrid c3fb 1) 1) (spanKey c3fb 1 i j) = some c ∧
      c.features = [{ geometry := some (Geometry.polygon c3rings),
                      properties := [] }]) ∧
     (∀ k, (∀ i j : ℕ, i ≤ 1 → j ≤ 1 → k ≠ spanKey c3fb 1 i j) →
      objGet (assignFeaturesToGrid
          { geometry := some (Geometry.polygon c3rings), properties := [] }
          (createGrid c3fb 1) 1) k = objGet (createGrid c3fb 1) k)) :=
  ⟨⟨by norm_num,
    of_decide_eq_true (by with_unfolding_all rfl),
    of_decide_eq_true (by with_unfolding_all rfl),
    of_decide_eq_true (by with_unfolding_all rfl),
    of_decide_eq_true (by with_unfolding_all rfl),
    of_decide_eq_true (by with_unfolding_all rfl),
    of_decide_eq_true (by with_unfolding_all rfl),
    of_decide_eq_true (by with_unfolding_all rfl),
    of_decide_eq_true (by with_unfolding_all rfl),
    of_decide_eq_true (by with_unfolding_all rfl)⟩,
   assignFeaturesToGrid_two_by_two c3fb c3fb 1 c3rings []
     (by norm_num)
     (of_decide_eq_true (by with_unfolding_all rfl))
     (of_decide_eq_true (by with_unfolding_all rfl))
     (of_decide_eq_true (by with_unfolding_all rfl))
     (le_refl _) (le_refl _) (le_refl _) (le_refl _)
     (of_decide_eq_true (by with_unfolding_all rfl))
     (of_decide_eq_true (by with_unfolding_all rfl))
     (of_decide_eq_true (by with_unfolding_all rfl))
     (of_decide_eq_true (by with_unfolding_all rfl))
     (of_decide_eq_true (by with_unfolding_all rfl))
     (of_decide_eq_true (by with_unfolding_all rfl))⟩

/-- The grid size of the **C3** counterexample: `10^-7` degrees. -/
def c3g : ℚ := 1/10000000

/-- A polygon ring spanning lat and lng `0.5 * 10^-7 .. 1.5 * 10^-7`. -/
def c3cexRings : List (List Coord) :=
  [[(1/20000000, 1/20000000), (3/20000000, 1/20000000),
    (3/20000000, 3/20000000), (1/20000000, 3/20000000),
    (1/20000000, 1/20000000)]]

/-- The bounding box of `c3cexRings`. -/
def c3cexFb : Bounds :=
  { minLat := 1/20000000, maxLat := 3/20000000,
    minLng := 1/20000000, maxLng := 3/20000000 }

set_option maxRecDepth 100000 in
/-- **C3** counterexample: with `gridSize = 10^-7 > 0` the polygon of
`c3cexRings` spans exactly 2 by 2 grid cells, yet the four `toFixed(6)`
cell keys all collapse to one string, so the feature is pushed four
times into a single grid entry instead of once into each of four cells —
the claim as stated (for the grid built from the computed bounds with
any gridSize > 0) fails. -/
theorem assignFeaturesToGrid_two_by_two_counterexample :
    ((0 : ℚ) < c3g ∧
     featureBounds (getAllCoordinates (Geometry.polygon c3cexRings)) =
       some c3cexFb ∧
     ⌊c3cexFb.maxLat / c3g⌋ = ⌊c3cexFb.minLat / c3g⌋ + 1 ∧
     ⌊c3cexFb.maxLng / c3g⌋ = ⌊c3cexFb.minLng / c3g⌋ + 1) ∧
    ¬ (∀ i j : ℕ, i ≤ 1 → j ≤ 1 → ∃ c,
      objGet (assignFeaturesToGrid
          { geometry := some (Geometry.polygon c3cexRings), properties := [] }
          (createGrid c3cexFb c3g) c3g) (spanKey c3cexFb c3g i j) = some c ∧
      c.features = [{ geometry := some (Geometry.polygon c3cexRings),
                      properties := [] }]) := by
  constructor
  · refine ⟨by norm_num [c3g], ?_,
      of_decide_eq_true (by with_unfolding_all rfl),
      of_decide_eq_true (by with_unfolding_all rfl)⟩
    simp only [c3cexRings, c3cexFb, getAllCoordinates, featureBounds,
      List.flatten, List.append_nil, List.foldl_cons, List.foldl_nil]
    norm_num [min_def, max_def]
  · intro h
    obtain ⟨c, hc, hcf⟩ := h 0 0 (by omega) (by omega)
    have h4 : (objGet (assignFeaturesToGrid
        { geometry := some (Geometry.polygon c3cexRings), properties := [] }
        (createGrid c3cexFb c3g) c3g) (spanKey c3cexFb c3g 0 0)).map
        (fun c => c.features.length) = some 4 :=
      of_decide_eq_true (by with_unfolding_all rfl)
    rw [hc] at h4
    simp [hcf] at h4
